import Mathlib

/-!
Verification development for the voice-to-voice (V2V) relay layer of the
xiaozhi-esp32-server gateway.  The definitions below are a shallow embedding
of `core/providers/v2v/elevenlabs.py` and
`core/handle/textHandler/listenMessageHandler.py`:

* Python's dynamic attributes (`hasattr` / `delattr` / `conn.x = None`) are
  modelled by the three-state type `Attr`: an attribute is `absent`
  (never set or deleted), `pyNone` (set to Python `None`), or `val a`
  (set to a real value).  `hasattr` is "not absent"; truthiness of an object
  attribute is "is a `val`".
* Byte strings (`bytes` / `bytearray`) are `List Nat` (abstract byte values).
* The Opus codec calls are black boxes: the encoder is applied to exactly the
  1920-byte PCM frame sliced off the buffer, so emitted frames are recorded
  by their PCM content; the decoder's outcome is an `Option (List Nat)`
  oracle (`none` models a decode exception).
* Network sends and device indications are recorded in an output trace
  (`OutEvt`); log lines are not modelled except for the decode-error log,
  which one claim mentions.
* `conn.client_abort` is written concurrently by other tasks while the
  outbound drain loop runs; the per-iteration read of that flag is modelled
  by an observation oracle `obs : Nat → Bool` (iteration number ↦ value
  read).  A single-threaded run uses the constant oracle.
-/

/-- Python attribute state: absent (`hasattr` is false), set to `None`,
or set to a value. -/
inductive Attr (α : Type) where
| absent : Attr α
| pyNone : Attr α
| val : α → Attr α
deriving DecidableEq, Repr

/-- The per-connection session state (`conn` object), restricted to the
fields read or written by the V2V relay code. -/
structure Conn where
  enable_voice2voice : Bool
  /-- `hasattr(conn, 'v2v') and conn.v2v` -/
  hasV2V : Bool
  client_listen_mode : Option String
  client_have_voice : Bool
  client_voice_stop : Bool
  client_abort : Bool
  client_is_speaking : Bool
  v2v_active : Bool
  elevenlabs_ws : Attr Unit
  elevenlabs_session_id : Attr (Option String)
  elevenlabs_receive_task : Attr Unit
  elevenlabs_opus_decoder : Attr Unit
  elevenlabs_opus_encoder : Attr Unit
  elevenlabs_audio_buffer : Attr (List Nat)
  elevenlabs_audio_started : Attr Bool
  elevenlabs_input_count : Attr Nat
  audio_flow_control : Attr Unit
deriving DecidableEq, Repr

/-- Observable outputs of the relay: device indications, backend sends and
the decode-error log line. -/
inductive OutEvt where
| ttsStart : OutEvt
| ttsStop : OutEvt
| audioFrame : List Nat → OutEvt
| userActivity : OutEvt
| sendAudioChunk : List Nat → OutEvt
| sendPong : Option String → OutEvt
| logDecodeError : OutEvt
deriving DecidableEq, Repr

/-- Truthiness of a Python `bool` attribute (absent and `None` are falsy). -/
def attrFlag : Attr Bool → Bool
| Attr.val b => b
| _ => false

/-- Content of a byte-buffer attribute (empty when not created). -/
def attrBytes : Attr (List Nat) → List Nat
| Attr.val b => b
| _ => []

/-- Value of a counter attribute (0 when not created). -/
def attrNat : Attr Nat → Nat
| Attr.val n => n
| _ => 0

/-- Effective value of the playback-started flag, as the source reads it:
`not hasattr(conn,'elevenlabs_audio_started') or not conn.elevenlabs_audio_started`
is the negation of this. -/
def effStarted (s : Conn) : Bool :=
  attrFlag s.elevenlabs_audio_started

/-- Effective content of the outbound audio buffer (empty when the
attribute has not been created yet). -/
def effBuf (s : Conn) : List Nat :=
  attrBytes s.elevenlabs_audio_buffer

/-- Effective value of the inbound chunk counter (0 when absent). -/
def effCount (s : Conn) : Nat :=
  attrNat s.elevenlabs_input_count

/-- Model of `bytearray.clear()` guarded by `hasattr`: a present buffer becomes
empty, an absent attribute stays absent. -/
def clearIfVal (a : Attr (List Nat)) : Attr (List Nat) :=
  match a with
  | Attr.val _ => Attr.val []
  | x => x

/-- Model of `conn.elevenlabs_audio_started = False` guarded by `hasattr`. -/
def offIfVal (a : Attr Bool) : Attr Bool :=
  match a with
  | Attr.val _ => Attr.val false
  | x => x

/-- Frame size used by `_handle_audio_output`:
960 samples × 2 bytes = 1920 bytes (60 ms at 16 kHz mono). -/
def frameSize : Nat := 1920

/-- The per-frame drain loop of `_handle_audio_output`
(`while len(buffer) >= frame_size`).  `obs k` is the value of
`conn.client_abort` read at iteration `k`; on an observed abort the whole
buffer is cleared and the loop exits.  Otherwise one `frameSize`-byte frame
is sliced off the front and emitted.  Returns (emitted PCM frames, final
buffer).  `fuel` is a structural-recursion bound; every caller supplies
more fuel than the loop can iterate, so the `0` case is unreachable. -/
def drainGo (obs : Nat → Bool) : Nat → Nat → List Nat → List (List Nat) × List Nat
| 0, _, buf => ([], buf)
| fuel + 1, k, buf =>
  if frameSize ≤ buf.length then
    if obs k then ([], [])
    else
      let r := drainGo obs fuel (k + 1) (buf.drop frameSize)
      (buf.take frameSize :: r.1, r.2)
  else ([], buf)

/-- The drain loop entered with buffer `buf`: `buf.length + 1` fuel is
always enough since each iteration consumes `frameSize > 0` bytes. -/
def drainLoop (obs : Nat → Bool) (buf : List Nat) : List (List Nat) × List Nat :=
  drainGo obs (buf.length + 1) 0 buf

/-- Lazy creation of the Opus encoder attribute in `_handle_audio_output`. -/
def ensureEncoder (s : Conn) : Conn :=
  if s.elevenlabs_opus_encoder = Attr.absent then
    { s with elevenlabs_opus_encoder := Attr.val () }
  else s

/-- Lazy creation of the outbound audio buffer in `_handle_audio_output`. -/
def ensureBuffer (s : Conn) : Conn :=
  if s.elevenlabs_audio_buffer = Attr.absent then
    { s with elevenlabs_audio_buffer := Attr.val [] }
  else s

/-- State changes of the first-audio-chunk branch of
`_handle_audio_output`: mark playback started, delete the inbound counter
(guarded `delattr`, so the result is absent either way), clear the abort
flag, delete flow control, mark the system speaking. -/
def markStarted (s : Conn) : Conn :=
  { s with elevenlabs_audio_started := Attr.val true
         , elevenlabs_input_count := Attr.absent
         , client_abort := false
         , audio_flow_control := Attr.absent
         , client_is_speaking := true }

/-- The first-audio-chunk branch of `_handle_audio_output`, including the
TTS "start" indication it sends. -/
def startIfNeeded (s : Conn) : Conn × List OutEvt :=
  if effStarted s then (s, [])
  else (markStarted s, [OutEvt.ttsStart])

/-- Model of `_handle_audio_output(conn, audio_data)`: ensure codec and buffer
attributes, run the playback-start branch if playback has not started,
append the chunk to the buffer, then drain whole frames.  Emitted Opus
packets are recorded by the PCM frame they encode. -/
def handleAudioOutput (obs : Nat → Bool) (s : Conn) (chunk : List Nat) :
    Conn × List OutEvt :=
  let s1 := ensureBuffer (ensureEncoder s)
  let p := startIfNeeded s1
  let buf := effBuf p.1 ++ chunk
  let r := drainLoop obs buf
  ({ p.1 with elevenlabs_audio_buffer := Attr.val r.2 },
   p.2 ++ r.1.map OutEvt.audioFrame)

/-- A fresh connection right after a successful `start_conversation`:
the websocket is open, no audio has flowed yet, none of the lazily created
audio attributes exist. -/
def freshActiveConn : Conn :=
  { enable_voice2voice := true
  , hasV2V := true
  , client_listen_mode := none
  , client_have_voice := false
  , client_voice_stop := false
  , client_abort := false
  , client_is_speaking := false
  , v2v_active := true
  , elevenlabs_ws := Attr.val ()
  , elevenlabs_session_id := Attr.absent
  , elevenlabs_receive_task := Attr.val ()
  , elevenlabs_opus_decoder := Attr.absent
  , elevenlabs_opus_encoder := Attr.absent
  , elevenlabs_audio_buffer := Attr.absent
  , elevenlabs_audio_started := Attr.absent
  , elevenlabs_input_count := Attr.absent
  , audio_flow_control := Attr.absent }

/-- The `v2v_active` and `has_ws` check at the top of `handle_audio_input`:
`getattr(conn,'v2v_active',False)` and
`hasattr(conn,'elevenlabs_ws') and conn.elevenlabs_ws is not None`. -/
def v2vReady (s : Conn) : Bool :=
  s.v2v_active &&
    (match s.elevenlabs_ws with
     | Attr.val _ => true
     | _ => false)

/-- Model of `notify_user_speaking(conn)`: returns without sending when the websocket
attribute is absent or falsy, otherwise sends one `user_activity` message. -/
def notifySend (s : Conn) : List OutEvt :=
  match s.elevenlabs_ws with
  | Attr.val _ => [OutEvt.userActivity]
  | _ => []

/-- The first-ever-chunk block of `handle_audio_input`
(`if not hasattr(conn, 'elevenlabs_input_count')`): create the counter at 0;
if the agent is currently speaking, set the abort flag, clear the outbound
buffer and playback-started flag (both `hasattr`-guarded), notify the
backend of user activity, then clear the abort flag; otherwise just notify. -/
def firstChunkBlock (s : Conn) : Conn × List OutEvt :=
  if s.elevenlabs_input_count = Attr.absent then
    let s0 := { s with elevenlabs_input_count := Attr.val 0 }
    if s0.client_is_speaking then
      let s1 := { s0 with client_abort := true
                        , elevenlabs_audio_buffer := clearIfVal s0.elevenlabs_audio_buffer
                        , elevenlabs_audio_started := offIfVal s0.elevenlabs_audio_started }
      ({ s1 with client_abort := false }, notifySend s1)
    else (s0, notifySend s0)
  else (s, [])

/-- Lazy creation of the Opus decoder attribute in `handle_audio_input`. -/
def ensureDecoder (s : Conn) : Conn :=
  if s.elevenlabs_opus_decoder = Attr.absent then
    { s with elevenlabs_opus_decoder := Attr.val () }
  else s

/-- Model of `handle_audio_input(conn, audio_data)`.  `dec` is the black-box Opus
decode outcome for this frame: `some pcm` is the decoded PCM payload,
`none` models a decode exception (caught by the inner `try`, which logs and
drops the frame).  When not ready, the handler only logs a warning and
returns.  Otherwise: first-chunk block, `elevenlabs_input_count += 1`
(the counter is a `val` at that point, so the effective-value increment is
exact), lazy decoder creation, then decode and forward the PCM as a
base64 `user_audio_chunk` message when the websocket is truthy. -/
def handleAudioInput (dec : Option (List Nat)) (s : Conn) (chunk : List Nat) :
    Conn × List OutEvt :=
  if v2vReady s then
    let p := firstChunkBlock s
    let s2 := { p.1 with elevenlabs_input_count := Attr.val (effCount p.1 + 1) }
    let s3 := ensureDecoder s2
    match dec with
    | some pcm =>
        (s3, p.2 ++
          (match s3.elevenlabs_ws with
           | Attr.val _ => [OutEvt.sendAudioChunk pcm]
           | _ => []))
    | none => (s3, p.2 ++ [OutEvt.logDecodeError])
  else (s, [])

/-- Classified inbound backend messages, as discriminated by
`_handle_json_message` on the `type` field.  `audio` carries the
base64-decoded PCM payload (`[]` when the `audio_base_64` field was the
empty string, which the source treats as falsy and skips);
`agentResponse` covers both the `agent_response` and
`agent_response_transcript` discriminants, which share one branch. -/
inductive InMsg where
| metadata : Option String → InMsg
| userTranscript : String → InMsg
| agentResponse : String → InMsg
| interruption : InMsg
| audio : List Nat → InMsg
| ping : Option String → InMsg
| unknown : String → InMsg
deriving DecidableEq, Repr

/-- Model of `_handle_json_message(conn, message)` after JSON parsing and
classification (parse failures are logged and dropped before this point). -/
def handleJsonMessage (s : Conn) (m : InMsg) : Conn × List OutEvt :=
  match m with
  | InMsg.metadata cid =>
      ({ s with elevenlabs_session_id := Attr.val cid }, [])
  | InMsg.userTranscript _ =>
      ({ s with client_abort := false
              , client_is_speaking := false
              , elevenlabs_audio_started := offIfVal s.elevenlabs_audio_started }, [])
  | InMsg.agentResponse _ =>
      ({ s with elevenlabs_audio_started := offIfVal s.elevenlabs_audio_started
              , client_is_speaking := false
              , client_abort := false }, [OutEvt.ttsStop])
  | InMsg.interruption =>
      ({ s with elevenlabs_audio_started := offIfVal s.elevenlabs_audio_started
              , elevenlabs_audio_buffer := clearIfVal s.elevenlabs_audio_buffer
              , client_is_speaking := false }, [])
  | InMsg.audio pcm =>
      if pcm.isEmpty then (s, [])
      else handleAudioOutput (fun _ => s.client_abort) s pcm
  | InMsg.ping eid => (s, [OutEvt.sendPong eid])
  | InMsg.unknown _ => (s, [])

/-- Steps executed by the `state == "start"` V2V branch of
`ListenTextMessageHandler.handle`, in source order.  Keeping the steps as
data lets the theorems speak about the state at the moment the remote
notification is sent. -/
inductive LStep where
| setAbort : Bool → LStep
| setSpeaking : Bool → LStep
| clearBuf : LStep
| clearStarted : LStep
| resetFlow : LStep
| notifyActivity : LStep
| resetCount : LStep
deriving DecidableEq, Repr

/-- Effect of one listen-handler step on the session state.
`notifyActivity` awaits `conn.v2v.notify_user_speaking(conn)`, which sends
a message but changes no session field. -/
def lstep (s : Conn) : LStep → Conn
| LStep.setAbort b => { s with client_abort := b }
| LStep.setSpeaking b => { s with client_is_speaking := b }
| LStep.clearBuf => { s with elevenlabs_audio_buffer := clearIfVal s.elevenlabs_audio_buffer }
| LStep.clearStarted => { s with elevenlabs_audio_started := offIfVal s.elevenlabs_audio_started }
| LStep.resetFlow =>
    { s with audio_flow_control :=
        match s.audio_flow_control with
        | Attr.absent => Attr.absent
        | _ => Attr.pyNone }
| LStep.notifyActivity => s
| LStep.resetCount =>
    { s with elevenlabs_input_count :=
        match s.elevenlabs_input_count with
        | Attr.val _ => Attr.val 0
        | x => x }

/-- Run a list of listen-handler steps from a state. -/
def lruns (s : Conn) : List LStep → Conn
| [] => s
| st :: rest => lruns (lstep s st) rest

/-- STEP 1–3 of the V2V branch: set abort, clear speaking, then the three
`hasattr`-guarded resets (buffer, playback-started flag, flow control), in
source order.  None of the earlier steps changes the presence of a later
guarded attribute, so evaluating the guards up front is faithful. -/
def muteSteps (s : Conn) : List LStep :=
  [LStep.setAbort true, LStep.setSpeaking false]
  ++ (if s.elevenlabs_audio_buffer ≠ Attr.absent then [LStep.clearBuf] else [])
  ++ (if s.elevenlabs_audio_started ≠ Attr.absent then [LStep.clearStarted] else [])
  ++ (if s.audio_flow_control ≠ Attr.absent then [LStep.resetFlow] else [])

/-- The full V2V branch of the listen "start" handler: mute steps, then the
remote notification (STEP 4), then clearing the abort flag (STEP 5), then
the guarded counter reset (STEP 6). -/
def listenStartV2VSteps (s : Conn) : List LStep :=
  muteSteps s
  ++ [LStep.notifyActivity, LStep.setAbort false]
  ++ (if s.elevenlabs_input_count ≠ Attr.absent then [LStep.resetCount] else [])

/-- State reached by the listen "start" handler before the V2V branch:
optional `client_listen_mode` update, then `client_have_voice = True` and
`client_voice_stop = False`. -/
def listenBase (mode : Option String) (s : Conn) : Conn :=
  let sm := match mode with
    | some m => { s with client_listen_mode := some m }
    | none => s
  { sm with client_have_voice := true, client_voice_stop := false }

/-- Model of `ListenTextMessageHandler.handle` for a message with
`state == "start"`: optional `mode` update, voice flags, then — when
voice-to-voice is enabled and a provider is attached — the interruption
sequence.  Returns the final state and the executed V2V steps. -/
def listenHandleStart (mode : Option String) (s : Conn) : Conn × List LStep :=
  if (listenBase mode s).enable_voice2voice && (listenBase mode s).hasV2V then
    (lruns (listenBase mode s) (listenStartV2VSteps (listenBase mode s)),
     listenStartV2VSteps (listenBase mode s))
  else (listenBase mode s, [])

/-- A Python exception relevant here: reading a deleted attribute. -/
inductive PyErr where
| attributeError : PyErr
deriving DecidableEq, Repr

/-- Body of the `try` block of `stop_conversation(conn)`: set
`v2v_active = False`, cancel the receive task (`hasattr`-guarded and
truthy-guarded; swallows the `CancelledError`, changes no modelled field),
then read `conn.elevenlabs_ws` — an `AttributeError` when the attribute was
deleted — and close/None it when truthy.  Returns the state reached
together with the exception, if one was raised. -/
def stopConversationBody (s : Conn) : Conn × Option PyErr :=
  let s1 := { s with v2v_active := false }
  match s1.elevenlabs_ws with
  | Attr.absent => (s1, some PyErr.attributeError)
  | Attr.pyNone => (s1, none)
  | Attr.val _ => ({ s1 with elevenlabs_ws := Attr.pyNone }, none)

/-- Model of `stop_conversation(conn)`: the surrounding `except Exception` logs and
swallows any error from the body, so the caller always gets the state the
body reached. -/
def stopConversation (s : Conn) : Conn :=
  (stopConversationBody s).1

/-- Model of `cleanup(conn)`: run `stop_conversation` (which never propagates an
error), then delete each of the six per-session attributes, each delete
guarded by `hasattr` so it cannot raise; hence the result is always `ok`.
Modelled in `Except` so that "raises no error to the caller" is a real
statement about the exception channel. -/
def cleanup (s : Conn) : Except PyErr Conn :=
  let s1 := stopConversation s
  Except.ok
    { s1 with elevenlabs_ws := Attr.absent
            , elevenlabs_session_id := Attr.absent
            , elevenlabs_receive_task := Attr.absent
            , elevenlabs_opus_decoder := Attr.absent
            , elevenlabs_opus_encoder := Attr.absent
            , elevenlabs_audio_buffer := Attr.absent }

/-- All per-session backend/audio resources are gone: websocket handle,
session id, receive task, both codec instances and the audio buffer. -/
def resourcesReleased (s : Conn) : Prop :=
  s.elevenlabs_ws = Attr.absent ∧
  s.elevenlabs_session_id = Attr.absent ∧
  s.elevenlabs_receive_task = Attr.absent ∧
  s.elevenlabs_opus_decoder = Attr.absent ∧
  s.elevenlabs_opus_encoder = Attr.absent ∧
  s.elevenlabs_audio_buffer = Attr.absent

theorem effBuf_mk (a₁ : Bool) (a₂ : Bool) (a₃ : Option String) (a₄ a₅ a₆ a₇ a₈ : Bool)
    (a₉ : Attr Unit) (a₁₀ : Attr (Option String)) (a₁₁ a₁₂ a₁₃ : Attr Unit)
    (buf : Attr (List Nat)) (a₁₄ : Attr Bool) (a₁₅ : Attr Nat) (a₁₆ : Attr Unit) :
    effBuf (Conn.mk a₁ a₂ a₃ a₄ a₅ a₆ a₇ a₈ a₉ a₁₀ a₁₁ a₁₂ a₁₃ buf a₁₄ a₁₅ a₁₆)
      = attrBytes buf := rfl

theorem effBuf_markStarted (s : Conn) : effBuf (markStarted s) = effBuf s := rfl

theorem effStarted_markStarted (s : Conn) : effStarted (markStarted s) = true := rfl

theorem effBuf_ensureEncoder (s : Conn) : effBuf (ensureEncoder s) = effBuf s := by
  unfold ensureEncoder
  split <;> rfl

theorem effStarted_ensureEncoder (s : Conn) :
    effStarted (ensureEncoder s) = effStarted s := by
  unfold ensureEncoder
  split <;> rfl

theorem effBuf_ensureBuffer (s : Conn) : effBuf (ensureBuffer s) = effBuf s := by
  unfold ensureBuffer
  split
  · rename_i h
    simp [effBuf, attrBytes, h]
  · rfl

theorem effStarted_ensureBuffer (s : Conn) :
    effStarted (ensureBuffer s) = effStarted s := by
  unfold ensureBuffer
  split <;> rfl

theorem startIfNeeded_not_started (s : Conn) (h : effStarted s = false) :
    startIfNeeded s = (markStarted s, [OutEvt.ttsStart]) := by
  simp [startIfNeeded, h]

theorem startIfNeeded_started (s : Conn) (h : effStarted s = true) :
    startIfNeeded s = (s, []) := by
  simp [startIfNeeded, h]

theorem drainGo_out_small (obs : Nat → Bool) :
    ∀ fuel k buf, buf.length < fuel →
      ((drainGo obs fuel k buf).2).length < frameSize := by
  intro fuel
  induction fuel with
  | zero => intro k buf h; exact absurd h (Nat.not_lt_zero _)
  | succ n ih =>
    intro k buf h
    simp only [drainGo]
    split
    · split
      · simp [frameSize]
      · exact ih (k + 1) (buf.drop frameSize)
          (by simp only [List.length_drop]; simp only [frameSize] at *; omega)
    · simp only []
      omega

theorem drainGo_small (obs : Nat → Bool) (fuel k : Nat) (buf : List Nat)
    (h : buf.length < frameSize) : drainGo obs fuel k buf = ([], buf) := by
  cases fuel with
  | zero => rfl
  | succ n => simp [drainGo, Nat.not_le.mpr h]

theorem drainGo_step (obs : Nat → Bool) (fuel k : Nat) (buf : List Nat)
    (hfuel : 0 < fuel) (hlen : frameSize ≤ buf.length) (hobs : obs k = false) :
    drainGo obs fuel k buf =
      (buf.take frameSize :: (drainGo obs (fuel - 1) (k + 1) (buf.drop frameSize)).1,
       (drainGo obs (fuel - 1) (k + 1) (buf.drop frameSize)).2) := by
  cases fuel with
  | zero => exact absurd hfuel (by omega)
  | succ n => simp [drainGo, hlen, hobs]

/-- C4: at any point in the per-frame drain loop of `_handle_audio_output`
where the loop is live (a full frame is still buffered) and the abort flag
is observed set, the entire remaining buffer is cleared and no further
frames are emitted, however many whole frames were still queued. -/
theorem drain_abort_clears (obs : Nat → Bool) (fuel k : Nat) (buf : List Nat)
    (hlen : frameSize ≤ buf.length) (habort : obs k = true) :
    drainGo obs (fuel + 1) k buf = ([], []) := by
  simp [drainGo, hlen, habort]

/-- Witness for C4: a buffer holding exactly two queued frames is wholly
discarded, with no frame emitted, when the abort flag is observed. -/
theorem drain_abort_clears_witness :
    frameSize ≤ (List.replicate 3840 0).length ∧
      (fun _ : Nat => true) 0 = true ∧
      drainGo (fun _ => true) 2 0 (List.replicate 3840 0) = ([], []) :=
  ⟨by simp only [List.length_replicate, frameSize]; omega, rfl,
   drain_abort_clears (fun _ => true) 1 0 (List.replicate 3840 0)
     (by simp only [List.length_replicate, frameSize]; omega) rfl⟩

/-- C10: after any completed call of the outbound relay
`_handle_audio_output`, the outbound audio buffer holds strictly fewer than
`frameSize` (1920) bytes — the drain loop runs until less than one full
frame remains or an observed abort has emptied the buffer. -/
theorem handle_audio_output_buffer_small (obs : Nat → Bool) (s : Conn)
    (chunk : List Nat) :
    (effBuf (handleAudioOutput obs s chunk).1).length < frameSize := by
  unfold handleAudioOutput drainLoop
  simp only [effBuf, attrBytes]
  exact drainGo_out_small obs _ 0 _ (Nat.lt_succ_self _)

/-- C9: a backend keepalive ping carrying a correlation id is answered by
exactly one pong echoing that id on the same connection, and no session
state changes. -/
theorem ping_pong_exact (s : Conn) (eid : String) :
    handleJsonMessage s (InMsg.ping (some eid)) =
      (s, [OutEvt.sendPong (some eid)]) := rfl

/-- C5: handling a backend agent-response (or agent-response-transcript)
event from any prior turn state leaves the playback-started flag, speaking
flag and abort flag all false and emits exactly one stop indication; the
state reset is idempotent. -/
theorem agent_response_turn_end (s : Conn) (t : String) :
    effStarted (handleJsonMessage s (InMsg.agentResponse t)).1 = false ∧
    (handleJsonMessage s (InMsg.agentResponse t)).1.client_is_speaking = false ∧
    (handleJsonMessage s (InMsg.agentResponse t)).1.client_abort = false ∧
    (handleJsonMessage s (InMsg.agentResponse t)).2 = [OutEvt.ttsStop] ∧
    (handleJsonMessage (handleJsonMessage s (InMsg.agentResponse t)).1
        (InMsg.agentResponse t)).1
      = (handleJsonMessage s (InMsg.agentResponse t)).1 := by
  cases h : s.elevenlabs_audio_started <;>
    simp [handleJsonMessage, effStarted, attrFlag, offIfVal, h]

/-- First chunk of the C8 scenario: 1000 bytes of value 1. -/
def c8chunk1 : List Nat := List.replicate 1000 1

/-- Second chunk of the C8 scenario: 1000 bytes of value 2. -/
def c8chunk2 : List Nat := List.replicate 1000 2

/-- Third chunk of the C8 scenario: 200 bytes of value 3. -/
def c8chunk3 : List Nat := List.replicate 200 3

/-- The relay state and trace after the first scenario chunk; the abort
observations are the value of `client_abort` at call time (no abort
occurs anywhere in the scenario). -/
def c8run1 : Conn × List OutEvt :=
  handleAudioOutput (fun _ => freshActiveConn.client_abort) freshActiveConn c8chunk1

/-- After the second scenario chunk. -/
def c8run2 : Conn × List OutEvt :=
  handleAudioOutput (fun _ => c8run1.1.client_abort) c8run1.1 c8chunk2

/-- After the third scenario chunk. -/
def c8run3 : Conn × List OutEvt :=
  handleAudioOutput (fun _ => c8run2.1.client_abort) c8run2.1 c8chunk3

/-- The 80 bytes left buffered after the second scenario chunk. -/
def c8rest2 : List Nat := (c8chunk1 ++ c8chunk2).drop frameSize

/-- The relay state after the first scenario chunk, written out. -/
def c8state1 : Conn :=
  { freshActiveConn with
      elevenlabs_opus_encoder := Attr.val ()
    , elevenlabs_audio_buffer := Attr.val c8chunk1
    , elevenlabs_audio_started := Attr.val true
    , client_is_speaking := true }

/-- The relay state after the second scenario chunk, written out. -/
def c8state2 : Conn :=
  { c8state1 with elevenlabs_audio_buffer := Attr.val c8rest2 }

/-- The relay state after the third scenario chunk, written out. -/
def c8state3 : Conn :=
  { c8state1 with elevenlabs_audio_buffer := Attr.val (c8rest2 ++ c8chunk3) }

/-- C8: with chunks of 1000, 1000 and 200 bytes and no abort, the relay
emits no audio frame after the first chunk, exactly one 1920-byte frame —
the first 1920 bytes of the concatenated stream in arrival order — after
the second chunk (leaving 80 bytes buffered), and nothing after the third
chunk (280 bytes buffered). -/
theorem relay_scenario_1000_1000_200 :
    c8run1.2 = [OutEvt.ttsStart] ∧
    effBuf c8run1.1 = c8chunk1 ∧
    c8run2.2 = [OutEvt.audioFrame ((c8chunk1 ++ c8chunk2).take frameSize)] ∧
    ((c8chunk1 ++ c8chunk2).take frameSize).length = frameSize ∧
    effBuf c8run2.1 = (c8chunk1 ++ c8chunk2).drop frameSize ∧
    (effBuf c8run2.1).length = 80 ∧
    c8run3.2 = [] ∧
    (effBuf c8run3.1).length = 280 := by
  have hc1 : c8chunk1.length = 1000 := by
    rw [show c8chunk1 = List.replicate 1000 1 from rfl, List.length_replicate]
  have hc2 : c8chunk2.length = 1000 := by
    rw [show c8chunk2 = List.replicate 1000 2 from rfl, List.length_replicate]
  have hc3 : c8chunk3.length = 200 := by
    rw [show c8chunk3 = List.replicate 200 3 from rfl, List.length_replicate]
  have h12 : (c8chunk1 ++ c8chunk2).length = 2000 := by
    rw [List.length_append, hc1, hc2]
  have hrest2 : c8rest2.length = 80 := by
    rw [show c8rest2 = (c8chunk1 ++ c8chunk2).drop frameSize from rfl,
      List.length_drop, h12]
    norm_num [frameSize]
  have e1 : c8run1 = (c8state1, [OutEvt.ttsStart]) := by
    unfold c8run1
    simp only [handleAudioOutput]
    rw [startIfNeeded_not_started _
      (by rw [effStarted_ensureBuffer, effStarted_ensureEncoder]; rfl)]
    dsimp only
    rw [effBuf_markStarted, effBuf_ensureBuffer, effBuf_ensureEncoder,
      show effBuf freshActiveConn = [] from rfl, List.nil_append]
    unfold drainLoop
    rw [drainGo_small _ _ _ _ (by rw [hc1]; norm_num [frameSize])]
    simp [markStarted, ensureBuffer, ensureEncoder, freshActiveConn, c8state1]
  have e2 : c8run2 = (c8state2,
      [OutEvt.audioFrame ((c8chunk1 ++ c8chunk2).take frameSize)]) := by
    unfold c8run2
    rw [e1]
    simp only [handleAudioOutput]
    rw [startIfNeeded_started _ (by rfl)]
    dsimp only
    rw [effBuf_ensureBuffer, effBuf_ensureEncoder,
      show effBuf c8state1 = c8chunk1 from rfl]
    unfold drainLoop
    rw [drainGo_step _ _ _ _ (by omega) (by rw [h12]; norm_num [frameSize])
      (by rfl)]
    rw [drainGo_small _ _ _ _
      (by rw [List.length_drop, h12]; norm_num [frameSize])]
    dsimp only
    rw [show (c8chunk1 ++ c8chunk2).drop frameSize = c8rest2 from rfl]
    simp [c8state1, c8state2, ensureBuffer, ensureEncoder, freshActiveConn]
  have hb2 : effBuf c8state2 = c8rest2 := by
    simp only [c8state2, effBuf_mk, attrBytes]
  have hb3 : effBuf c8state3 = c8rest2 ++ c8chunk3 := by
    simp only [c8state3, effBuf_mk, attrBytes]
  have e3 : c8run3 = (c8state3, []) := by
    unfold c8run3
    rw [e2]
    simp only [handleAudioOutput]
    rw [startIfNeeded_started _ (by rfl)]
    dsimp only
    rw [effBuf_ensureBuffer, effBuf_ensureEncoder, hb2]
    unfold drainLoop
    rw [drainGo_small _ _ _ _
      (by rw [List.length_append, hrest2, hc3]; norm_num [frameSize])]
    simp [c8state1, c8state2, c8state3, ensureBuffer, ensureEncoder,
      freshActiveConn]
  have h3len : (c8rest2 ++ c8chunk3).length = 280 := by
    rw [List.length_append, hrest2, hc3]
  refine ⟨by rw [e1], by rw [e1]; exact rfl, by rw [e2], ?_, ?_, ?_,
    by rw [e3], ?_⟩
  · rw [List.length_take, h12]
    norm_num [frameSize]
  · rw [e2]
    show effBuf c8state2 = (c8chunk1 ++ c8chunk2).drop frameSize
    rw [hb2]
    exact rfl
  · rw [e2]
    show (effBuf c8state2).length = 80
    rw [hb2, hrest2]
  · rw [e3]
    show (effBuf c8state3).length = 280
    rw [hb3, h3len]

/-- C1, counterexample: a single 100-byte chunk — far below the claimed
2 × frame-size (3840-byte) pre-buffer threshold — already makes the relay
emit the playback-start indication and set the playback-started flag. -/
theorem prebuffer_threshold_counterexample :
    (handleAudioOutput (fun _ => false) freshActiveConn (List.replicate 100 0)).2
        = [OutEvt.ttsStart] ∧
    (handleAudioOutput (fun _ => false) freshActiveConn
        (List.replicate 100 0)).1.elevenlabs_audio_started = Attr.val true ∧
    (effBuf (handleAudioOutput (fun _ => false) freshActiveConn
        (List.replicate 100 0)).1).length = 100 ∧
    100 < 2 * frameSize := by
  decide

/-- C1 as amended: the playback-start indication is emitted (and the
playback-started flag set) on the very first audio chunk of an utterance,
whatever its size; and while the buffer holds fewer than `frameSize`
(1920) bytes no audio frame is emitted — the bytes stay buffered. -/
theorem playback_starts_on_first_chunk (obs : Nat → Bool) (s : Conn)
    (chunk : List Nat) (h : effStarted s = false) :
    OutEvt.ttsStart ∈ (handleAudioOutput obs s chunk).2 ∧
    effStarted (handleAudioOutput obs s chunk).1 = true ∧
    ((effBuf s ++ chunk).length < frameSize →
      (∀ f, OutEvt.audioFrame f ∉ (handleAudioOutput obs s chunk).2) ∧
      effBuf (handleAudioOutput obs s chunk).1 = effBuf s ++ chunk) := by
  simp only [handleAudioOutput]
  rw [startIfNeeded_not_started _
    (by rw [effStarted_ensureBuffer, effStarted_ensureEncoder]; exact h)]
  dsimp only
  rw [effBuf_markStarted, effBuf_ensureBuffer, effBuf_ensureEncoder]
  refine ⟨by simp, rfl, ?_⟩
  intro hlen
  have hdrain : drainLoop obs (effBuf s ++ chunk) = ([], effBuf s ++ chunk) :=
    drainGo_small _ _ _ _ hlen
  rw [hdrain]
  simp [effBuf, attrBytes]

/-- Witness for the amended C1: the first chunk after session start (100
bytes) triggers the start indication, sets the flag, and emits no frame. -/
theorem playback_starts_on_first_chunk_witness :
    effStarted freshActiveConn = false ∧
    (OutEvt.ttsStart ∈ (handleAudioOutput (fun _ => false) freshActiveConn
        (List.replicate 100 0)).2 ∧
     effStarted (handleAudioOutput (fun _ => false) freshActiveConn
        (List.replicate 100 0)).1 = true ∧
     ((effBuf freshActiveConn ++ List.replicate 100 0).length < frameSize →
       (∀ f, OutEvt.audioFrame f ∉ (handleAudioOutput (fun _ => false)
          freshActiveConn (List.replicate 100 0)).2) ∧
       effBuf (handleAudioOutput (fun _ => false) freshActiveConn
          (List.replicate 100 0)).1
         = effBuf freshActiveConn ++ List.replicate 100 0)) :=
  ⟨rfl, playback_starts_on_first_chunk (fun _ => false) freshActiveConn
    (List.replicate 100 0) rfl⟩

theorem v2vReady_ws (s : Conn) (h : v2vReady s = true) :
    s.elevenlabs_ws = Attr.val () := by
  unfold v2vReady at h
  cases hw : s.elevenlabs_ws with
  | absent => rw [hw] at h; simp at h
  | pyNone => rw [hw] at h; simp at h
  | val u => cases u; rfl

/-- Session used to refute the N=5 interruption heuristic of C3: the agent
is speaking, two bytes of agent audio are buffered, and no inbound chunk
has arrived yet. -/
def c3conn : Conn :=
  { freshActiveConn with
      client_is_speaking := true
    , elevenlabs_audio_buffer := Attr.val [5, 6]
    , elevenlabs_audio_started := Attr.val true }

/-- C3, counterexample: while the agent is speaking, the very first inbound
audio chunk — not the fifth — already triggers the mute-then-notify
sequence: the outbound buffer is cleared, the playback-started flag drops,
a user-activity notification is sent, and the counter is only at 1 (< 5). -/
theorem interruption_threshold_counterexample :
    (handleAudioInput (some [7]) c3conn [9]).1.elevenlabs_input_count
        = Attr.val 1 ∧
    (1 : Nat) < 5 ∧
    (handleAudioInput (some [7]) c3conn [9]).1.elevenlabs_audio_buffer
        = Attr.val [] ∧
    (handleAudioInput (some [7]) c3conn [9]).1.elevenlabs_audio_started
        = Attr.val false ∧
    OutEvt.userActivity ∈ (handleAudioInput (some [7]) c3conn [9]).2 := by
  decide

/-- C3 as amended: the implicit interruption fires on the *first* inbound
audio chunk after the counter was reset (counter attribute absent) while
the agent is speaking — muting playback, clearing the buffer and notifying
the backend; a first chunk while the agent is idle sends an ordinary
activity notification with no mute; every later chunk only increments the
counter and sends no notification and no mute.  In particular three chunks
while idle leave the counter at 3 with no interruption. -/
theorem audio_input_interrupts_on_first_chunk (dec : Option (List Nat))
    (s : Conn) (chunk : List Nat) (hready : v2vReady s = true) :
    (s.elevenlabs_input_count = Attr.absent → s.client_is_speaking = true →
       effBuf (handleAudioInput dec s chunk).1 = [] ∧
       effStarted (handleAudioInput dec s chunk).1 = false ∧
       OutEvt.userActivity ∈ (handleAudioInput dec s chunk).2 ∧
       (handleAudioInput dec s chunk).1.client_abort = false ∧
       (handleAudioInput dec s chunk).1.elevenlabs_input_count = Attr.val 1) ∧
    (s.elevenlabs_input_count = Attr.absent → s.client_is_speaking = false →
       OutEvt.userActivity ∈ (handleAudioInput dec s chunk).2 ∧
       (handleAudioInput dec s chunk).1.client_abort = s.client_abort ∧
       (handleAudioInput dec s chunk).1.elevenlabs_audio_buffer
         = s.elevenlabs_audio_buffer ∧
       (handleAudioInput dec s chunk).1.elevenlabs_input_count = Attr.val 1) ∧
    (∀ n, s.elevenlabs_input_count = Attr.val n →
       OutEvt.userActivity ∉ (handleAudioInput dec s chunk).2 ∧
       (handleAudioInput dec s chunk).1.client_abort = s.client_abort ∧
       (handleAudioInput dec s chunk).1.elevenlabs_audio_buffer
         = s.elevenlabs_audio_buffer ∧
       (handleAudioInput dec s chunk).1.elevenlabs_input_count
         = Attr.val (n + 1)) := by
  have hws := v2vReady_ws s hready
  refine ⟨?_, ?_, ?_⟩
  · intro h1 h2
    cases dec <;>
      cases hb : s.elevenlabs_audio_buffer <;>
      cases hs : s.elevenlabs_audio_started <;>
      cases hd : s.elevenlabs_opus_decoder <;>
        simp [handleAudioInput, hready, firstChunkBlock, ensureDecoder,
          notifySend, effBuf, effStarted, effCount, attrBytes, attrFlag,
          attrNat, clearIfVal, offIfVal, h1, h2, hws, hb, hs, hd]
  · intro h1 h2
    cases dec <;>
      cases hd : s.elevenlabs_opus_decoder <;>
        simp [handleAudioInput, hready, firstChunkBlock, ensureDecoder,
          notifySend, effCount, attrNat, h1, h2, hws, hd]
  · intro n h1
    cases dec <;>
      cases hd : s.elevenlabs_opus_decoder <;>
        simp [handleAudioInput, hready, firstChunkBlock, ensureDecoder,
          notifySend, effCount, attrNat, h1, hws, hd]

/-- Witness for the amended C3: on a session with the agent speaking, the
first inbound chunk triggers the interruption branch. -/
theorem audio_input_interrupts_on_first_chunk_witness :
    v2vReady c3conn = true ∧
    ((c3conn.elevenlabs_input_count = Attr.absent →
        c3conn.client_is_speaking = true →
        effBuf (handleAudioInput (some [7]) c3conn [9]).1 = [] ∧
        effStarted (handleAudioInput (some [7]) c3conn [9]).1 = false ∧
        OutEvt.userActivity ∈ (handleAudioInput (some [7]) c3conn [9]).2 ∧
        (handleAudioInput (some [7]) c3conn [9]).1.client_abort = false ∧
        (handleAudioInput (some [7]) c3conn [9]).1.elevenlabs_input_count
          = Attr.val 1) ∧
     (c3conn.elevenlabs_input_count = Attr.absent →
        c3conn.client_is_speaking = false →
        OutEvt.userActivity ∈ (handleAudioInput (some [7]) c3conn [9]).2 ∧
        (handleAudioInput (some [7]) c3conn [9]).1.client_abort
          = c3conn.client_abort ∧
        (handleAudioInput (some [7]) c3conn [9]).1.elevenlabs_audio_buffer
          = c3conn.elevenlabs_audio_buffer ∧
        (handleAudioInput (some [7]) c3conn [9]).1.elevenlabs_input_count
          = Attr.val 1) ∧
     (∀ n, c3conn.elevenlabs_input_count = Attr.val n →
        OutEvt.userActivity ∉ (handleAudioInput (some [7]) c3conn [9]).2 ∧
        (handleAudioInput (some [7]) c3conn [9]).1.client_abort
          = c3conn.client_abort ∧
        (handleAudioInput (some [7]) c3conn [9]).1.elevenlabs_audio_buffer
          = c3conn.elevenlabs_audio_buffer ∧
        (handleAudioInput (some [7]) c3conn [9]).1.elevenlabs_input_count
          = Attr.val (n + 1))) :=
  ⟨rfl, audio_input_interrupts_on_first_chunk (some [7]) c3conn [9] rfl⟩

/-- A mid-conversation session: three chunks already forwarded. -/
def c6conn : Conn :=
  { freshActiveConn with elevenlabs_input_count := Attr.val 3 }

/-- C6, counterexample: a chunk whose decode fails is logged and dropped
(the only output is the decode-error log line, so no PCM reaches the
backend), yet the forwarded-chunk counter still advances from 3 to 4 —
the source increments it before attempting the decode. -/
theorem decode_failure_counter_counterexample :
    (handleAudioInput none c6conn [1]).1.elevenlabs_input_count
        = Attr.val 4 ∧
    (handleAudioInput none c6conn [1]).2 = [OutEvt.logDecodeError] := by
  decide

/-- C6 as amended: an inbound frame whose Opus decode fails is logged and
skipped — no PCM chunk is forwarded — and the handler leaves the session
ready for subsequent frames; however the chunk counter is incremented for
the failed frame as well, since the source increments before decoding. -/
theorem decode_failure_nonfatal (s : Conn) (chunk : List Nat)
    (hready : v2vReady s = true) :
    OutEvt.logDecodeError ∈ (handleAudioInput none s chunk).2 ∧
    (∀ p, OutEvt.sendAudioChunk p ∉ (handleAudioInput none s chunk).2) ∧
    effCount (handleAudioInput none s chunk).1 = effCount s + 1 ∧
    v2vReady (handleAudioInput none s chunk).1 = true := by
  have hws := v2vReady_ws s hready
  have hact : s.v2v_active = true := by
    unfold v2vReady at hready
    exact (Bool.and_eq_true _ _ |>.mp hready).1
  cases hc : s.elevenlabs_input_count <;>
    cases hsp : s.client_is_speaking <;>
    cases hd : s.elevenlabs_opus_decoder <;>
      simp [handleAudioInput, hready, firstChunkBlock, ensureDecoder,
        notifySend, effCount, attrNat, v2vReady, clearIfVal, offIfVal,
        hws, hact, hc, hsp, hd]

/-- Witness for the amended C6: a failed decode on the fourth chunk. -/
theorem decode_failure_nonfatal_witness :
    v2vReady c6conn = true ∧
    (OutEvt.logDecodeError ∈ (handleAudioInput none c6conn [1]).2 ∧
     (∀ p, OutEvt.sendAudioChunk p ∉ (handleAudioInput none c6conn [1]).2) ∧
     effCount (handleAudioInput none c6conn [1]).1 = effCount c6conn + 1 ∧
     v2vReady (handleAudioInput none c6conn [1]).1 = true) :=
  ⟨rfl, decode_failure_nonfatal c6conn [1] rfl⟩

/-- A locally muted session: abort set, playback silenced, no buffered
output, no playback-started flag, no active flow-control object. -/
def mutedState (s : Conn) : Prop :=
  s.client_abort = true ∧ s.client_is_speaking = false ∧ effBuf s = [] ∧
  effStarted s = false ∧ s.audio_flow_control ≠ Attr.val ()

theorem lruns_append (s : Conn) (a b : List LStep) :
    lruns s (a ++ b) = lruns (lruns s a) b := by
  induction a generalizing s with
  | nil => rfl
  | cons x xs ih => simp [lruns, ih]

theorem listenBase_enable (mode : Option String) (s : Conn) :
    (listenBase mode s).enable_voice2voice = s.enable_voice2voice := by
  cases mode <;> rfl

theorem listenBase_hasV2V (mode : Option String) (s : Conn) :
    (listenBase mode s).hasV2V = s.hasV2V := by
  cases mode <;> rfl

theorem muteSteps_muted (t : Conn) : mutedState (lruns t (muteSteps t)) := by
  unfold muteSteps
  split_ifs with h1 h2 h3 <;>
    cases hb : t.elevenlabs_audio_buffer <;>
    cases hs : t.elevenlabs_audio_started <;>
    cases hf : t.audio_flow_control <;>
      simp_all [lruns, lstep, mutedState, effBuf, effStarted, attrBytes,
        attrFlag, clearIfVal, offIfVal]

theorem notify_not_in_muteSteps (t : Conn) :
    LStep.notifyActivity ∉ muteSteps t := by
  unfold muteSteps
  split_ifs <;> simp

theorem listenStartV2VSteps_decomp (t : Conn) :
    listenStartV2VSteps t = muteSteps t ++ LStep.notifyActivity ::
      (LStep.setAbort false ::
        (if t.elevenlabs_input_count ≠ Attr.absent
         then [LStep.resetCount] else [])) := by
  unfold listenStartV2VSteps
  simp [List.append_assoc]

theorem lruns_v2vSteps_abort (t : Conn) :
    (lruns t (listenStartV2VSteps t)).client_abort = false := by
  rw [listenStartV2VSteps_decomp, lruns_append]
  split_ifs <;> simp [lruns, lstep]

/-- C2: when voice-to-voice is enabled, the listen "start" handler runs all
local muting effects — abort set, speaking cleared, output buffer emptied,
playback-started flag dropped, flow control reset — strictly before the
remote user-activity notification step, and the abort flag is false again
once the handler finishes. -/
theorem listen_start_mute_before_notify (mode : Option String) (s : Conn)
    (h1 : s.enable_voice2voice = true) (h2 : s.hasV2V = true) :
    ∃ pre post,
      (listenHandleStart mode s).2 = pre ++ LStep.notifyActivity :: post ∧
      LStep.notifyActivity ∉ pre ∧
      mutedState (lruns (listenBase mode s) pre) ∧
      (listenHandleStart mode s).1.client_abort = false := by
  have hcond : ((listenBase mode s).enable_voice2voice &&
      (listenBase mode s).hasV2V) = true := by
    rw [listenBase_enable, listenBase_hasV2V, h1, h2]
    rfl
  have hfst : (listenHandleStart mode s).1
      = lruns (listenBase mode s) (listenStartV2VSteps (listenBase mode s)) := by
    unfold listenHandleStart
    rw [hcond]
    rfl
  have hsnd : (listenHandleStart mode s).2
      = listenStartV2VSteps (listenBase mode s) := by
    unfold listenHandleStart
    rw [hcond]
    rfl
  refine ⟨muteSteps (listenBase mode s),
    LStep.setAbort false ::
      (if (listenBase mode s).elevenlabs_input_count ≠ Attr.absent
       then [LStep.resetCount] else []), ?_, notify_not_in_muteSteps _,
    muteSteps_muted _, ?_⟩
  · rw [hsnd, listenStartV2VSteps_decomp]
  · rw [hfst]
    exact lruns_v2vSteps_abort _

/-- Witness for C2: a fresh enabled session handling a "start" message. -/
theorem listen_start_mute_before_notify_witness :
    freshActiveConn.enable_voice2voice = true ∧
    freshActiveConn.hasV2V = true ∧
    (∃ pre post,
      (listenHandleStart none freshActiveConn).2
        = pre ++ LStep.notifyActivity :: post ∧
      LStep.notifyActivity ∉ pre ∧
      mutedState (lruns (listenBase none freshActiveConn) pre) ∧
      (listenHandleStart none freshActiveConn).1.client_abort = false) :=
  ⟨rfl, rfl, listen_start_mute_before_notify none freshActiveConn rfl rfl⟩

/-- C7: calling cleanup twice on any session — including one whose backend
connection never opened — propagates no error to the caller, and after the
second call (already after the first) every per-session resource is gone;
the second call does not change the state at all. -/
theorem cleanup_idempotent_releases_all (s : Conn) :
    ∃ s₁, cleanup s = Except.ok s₁ ∧ resourcesReleased s₁ ∧
      ∃ s₂, cleanup s₁ = Except.ok s₂ ∧ resourcesReleased s₂ ∧ s₂ = s₁ := by
  refine ⟨_, rfl, ⟨rfl, rfl, rfl, rfl, rfl, rfl⟩, _, rfl,
    ⟨rfl, rfl, rfl, rfl, rfl, rfl⟩, ?_⟩
  cases hw : s.elevenlabs_ws <;>
    simp [cleanup, stopConversation, stopConversationBody, hw]
